import Mathlib

/-!
Shallow embedding of the Gemini-RAG-Assistant backend
(`backend/gemini_service.py` and `backend/main.py`).

Python strings are modelled as `List Char` (sequences of code points).
The external Gemini SDK is modelled as an oracle of functions supplied to
each operation; a raised Python exception is modelled as `Except.error`
carrying the exception's message string.
-/

set_option autoImplicit false

/-- A Python string: a sequence of characters. -/
abbrev PyStr := List Char

/-! ### String primitives used by `ask_question`'s normalization
(`gemini_service.py` lines 84-90). -/

/-- `s.startswith(pat)` — `pyStartsWith pat s`. -/
def pyStartsWith : PyStr → PyStr → Bool
  | [], _ => true
  | _ :: _, [] => false
  | p :: ps, c :: cs => if p = c then pyStartsWith ps cs else false

/-- `pat in s` — substring containment (Python `in` on strings). -/
def containsSub (pat : PyStr) : PyStr → Bool
  | [] => pyStartsWith pat []
  | c :: rest => pyStartsWith pat (c :: rest) || containsSub pat rest

/-- Worker for `pySplit`: Python's left-to-right, non-overlapping scan of
`str.split(sep)`.  Each step consumes at least one character, so a fuel of
`s.length` is enough for the scan to complete; the fuel-exhausted branch is
never reached from `pySplit`. -/
def pySplitFuel (sep : PyStr) : Nat → PyStr → PyStr → List PyStr
  | 0, acc, s => [acc.reverse ++ s]
  | _ + 1, acc, [] => [acc.reverse]
  | fuel + 1, acc, c :: rest =>
    if pyStartsWith sep (c :: rest) then
      acc.reverse :: pySplitFuel sep fuel [] (rest.drop (sep.length - 1))
    else
      pySplitFuel sep fuel (c :: acc) rest

/-- `s.split(sep)` for a non-empty separator. -/
def pySplit (sep s : PyStr) : List PyStr := pySplitFuel sep s.length [] s

/-- `lst[-1]` on a list of strings (Python negative indexing; `[]` never
occurs because `split` always returns at least one piece). -/
def pyLast : List PyStr → PyStr
  | [] => []
  | [x] => x
  | _ :: x :: xs => pyLast (x :: xs)

/-- The literal `"http"` tested by `fid.startswith("http")`. -/
def httpStart : PyStr := ['h', 't', 't', 'p']

/-- The literal `"/files/"` used for containment and splitting. -/
def filesSep : PyStr := ['/', 'f', 'i', 'l', 'e', 's', '/']

/-- The literal `"files/"` prepended to the extracted identifier. -/
def filesTag : PyStr := ['f', 'i', 'l', 'e', 's', '/']

/-- Normalization of one file reference, from `gemini_service.py`
lines 84-90:
`if isinstance(fid, str) and fid.startswith("http") and "/files/" in fid:`
`    clean_id = "files/" + fid.split("/files/")[-1]` else keep `fid`.
(The `isinstance` test is always true here: every reference is a string.) -/
def normalizeFileReference (fid : PyStr) : PyStr :=
  if pyStartsWith httpStart fid && containsSub filesSep fid then
    filesTag ++ pyLast (pySplit filesSep fid)
  else
    fid

/-! ### Provider-side data model -/

/-- Lifecycle state of a provider file (`f.state.name` in the SDK). -/
inductive FileState where
  | pending
  | active
  | failed
deriving DecidableEq

/-- The record the provider returns for `genai.get_file`. -/
structure ProviderFile where
  name : PyStr
  state : FileState
deriving DecidableEq

/-- One diagnostic line printed for a dropped reference in the resolution
loop of `ask_question`: `WARNING: File {name} is not ACTIVE (State: {st})`
or `ERROR: Could not get file {fid}: {e}`. -/
inductive DropLog where
  | notActive (name : PyStr) (st : FileState)
  | resolveFailed (fid : PyStr)
deriving DecidableEq

/-- The resolution loop of `ask_question` (`gemini_service.py` lines
92-102): for each already-normalized id, query `genai.get_file` (modelled by
`g`, with `none` for a raised exception); keep the file when its state is
ACTIVE, otherwise record a diagnostic and drop it.  The `try/except` around
`get_file` swallows the exception, so the loop itself never fails. -/
def resolveLoop (g : PyStr → Option ProviderFile) :
    List PyStr → List ProviderFile × List DropLog
  | [] => ([], [])
  | fid :: rest =>
    match g fid with
    | some f =>
      if f.state = FileState.active then
        (f :: (resolveLoop g rest).1, (resolveLoop g rest).2)
      else
        ((resolveLoop g rest).1,
          DropLog.notActive f.name f.state :: (resolveLoop g rest).2)
    | none =>
      ((resolveLoop g rest).1, DropLog.resolveFailed fid :: (resolveLoop g rest).2)

/-- The complete file-resolution step of `ask_question` (lines 80-102):
normalize every reference, then run the resolution loop.  This is the
`resolveFiles` operation of the specification. -/
def resolveFiles (g : PyStr → Option ProviderFile) (refs : List PyStr) :
    List ProviderFile × List DropLog :=
  resolveLoop g (refs.map normalizeFileReference)

/-- What one reference contributes to the valid files: `some f` when the
provider resolves it to an ACTIVE record, `none` when it is dropped. -/
def resolveCheck (g : PyStr → Option ProviderFile) (fid : PyStr) :
    Option ProviderFile :=
  match g fid with
  | some f => if f.state = FileState.active then some f else none
  | none => none

/-! ### Chat data model -/

/-- One element of `message_parts`: the literal message string or an
attached provider file object. -/
inductive MsgPart where
  | text (s : PyStr)
  | file (f : ProviderFile)
deriving DecidableEq

/-- A turn of the caller-supplied history: `{'role': ..., 'content': ...}`. -/
structure ChatTurn where
  role : PyStr
  content : PyStr
deriving DecidableEq

/-- A turn in the provider's expected format: `{"role": ..., "parts": [...]}`. -/
structure GeminiTurn where
  role : PyStr
  parts : List PyStr
deriving DecidableEq

/-- The literal `"user"`. -/
def userRole : PyStr := ['u', 's', 'e', 'r']

/-- The literal `"model"`. -/
def modelRole : PyStr := ['m', 'o', 'd', 'e', 'l']

/-- History mapping of `ask_question` (lines 66-72):
`role = "user" if msg['role'] == "user" else "model"`, parts `[content]`. -/
def geminiHistory (history : List ChatTurn) : List GeminiTurn :=
  history.map fun m =>
    { role := if m.role = userRole then userRole else modelRole
      parts := [m.content] }

/-- Oracle for the external SDK calls made by `ask_question`:
`genai.get_file` (a raised exception is `none`) and
`chat.send_message` on a chat seeded with the given history
(a raised exception is `Except.error` with the exception's message). -/
structure Provider where
  getFile : PyStr → Option ProviderFile
  sendMessage : List GeminiTurn → List MsgPart → Except PyStr PyStr

/-- Construction of `message_parts` (lines 78-108): start from
`[message]`; when `file_ids` is truthy (not None and non-empty), resolve
them and extend with the valid files when any survived. -/
def sentParts (g : PyStr → Option ProviderFile) (message : PyStr)
    (file_ids : Option (List PyStr)) : List MsgPart :=
  match file_ids with
  | none => [MsgPart.text message]
  | some [] => [MsgPart.text message]
  | some (r :: rs) =>
    match (resolveFiles g (r :: rs)).1 with
    | [] => [MsgPart.text message]
    | v :: vs => [MsgPart.text message] ++ (v :: vs).map MsgPart.file

/-- `GeminiService.ask_question` (lines 55-120): build the provider-format
history, build `message_parts`, send, and return the reply text.  The outer
`try/except` prints a traceback and re-raises the same exception, so any
failure of `send_message` propagates unchanged. -/
def ask_question (P : Provider) (message : PyStr) (history : List ChatTurn)
    (file_ids : Option (List PyStr)) : Except PyStr PyStr :=
  match P.sendMessage (geminiHistory history) (sentParts P.getFile message file_ids) with
  | Except.ok t => Except.ok t
  | Except.error e => Except.error e

/-! ### Upload -/

/-- The literal `"application/octet-stream"`. -/
def octetStream : PyStr := "application/octet-stream".toList

/-- The literal `"uploads/"` path prefix of the local content store. -/
def uploadsDir : PyStr := "uploads/".toList

/-- The provider's response to `genai.upload_file`. -/
structure GeminiFile where
  uri : PyStr
deriving DecidableEq

/-- `FileUploadResponse` (pydantic model, `gemini_service.py` lines 7-11). -/
structure FileUploadResponse where
  filename : PyStr
  file_id : PyStr
  mime_type : PyStr
  uri : PyStr
deriving DecidableEq

/-- Oracle for the effects of `upload_file`: the local disk write
(`open(...,"wb").write`, with `Except.error` for a raised `OSError`) and
`genai.upload_file` applied to display name, mime type and content. -/
structure UploadEnv where
  localWrite : PyStr → List Nat → Except PyStr Unit
  providerUpload : PyStr → PyStr → List Nat → Except PyStr GeminiFile

/-- Python `x or default` on an optional string: `None` and the empty
string are falsy. -/
def pyOr (x : Option PyStr) (default : PyStr) : PyStr :=
  match x with
  | none => default
  | some s => if s = [] then default else s

/-- `GeminiService.upload_file` (lines 18-53): write the content to
`uploads/{filename}` (no exception handler, so a failure propagates), then
upload to the provider with `file.content_type or "application/octet-stream"`,
and return the response with `file_id` set to the provider URI. -/
def upload_file (env : UploadEnv) (filename : PyStr) (contentType : Option PyStr)
    (content : List Nat) : Except PyStr FileUploadResponse :=
  match env.localWrite (uploadsDir ++ filename) content with
  | Except.error e => Except.error e
  | Except.ok _ =>
    match env.providerUpload filename (pyOr contentType octetStream) content with
    | Except.error e => Except.error e
    | Except.ok gf =>
      Except.ok
        { filename := filename
          file_id := gf.uri
          mime_type := pyOr contentType octetStream
          uri := gf.uri }

/-! ### HTTP gateway (`main.py`) -/

/-- Body of a `POST /chat` request (`main.py` lines 38-41). -/
structure ChatRequest where
  message : PyStr
  history : List ChatTurn
  file_ids : Option (List PyStr)

/-- Body of a successful `POST /chat` response: `{"response": ...}`. -/
structure ChatBody where
  response : PyStr
deriving DecidableEq

/-- The `/chat` route handler (`main.py` lines 58-66): it calls
`ask_question` with no exception handling of its own, so an adapter failure
escapes the handler. -/
def chatHandler (P : Provider) (req : ChatRequest) : Except PyStr ChatBody :=
  match ask_question P req.message req.history req.file_ids with
  | Except.ok r => Except.ok { response := r }
  | Except.error e => Except.error e

/-- An HTTP response: status code and body text. -/
structure HttpResponse where
  status : Nat
  body : PyStr
deriving DecidableEq

/-- The fixed body of FastAPI's default handler for unhandled exceptions. -/
def internalServerErrorText : PyStr := "Internal Server Error".toList

/-- The framework layer around the `/chat` handler: a returned value is
serialized into a 200 response; an exception escaping the handler is turned
by the framework's default exception handler into a 500 response whose body
is the fixed text `"Internal Server Error"` — the exception's own message is
not placed in the body. -/
def frameworkRespond (serialize : ChatBody → PyStr) (r : Except PyStr ChatBody) :
    HttpResponse :=
  match r with
  | Except.ok v => { status := 200, body := serialize v }
  | Except.error _ => { status := 500, body := internalServerErrorText }

/-! ### View endpoint -/

/-- Result of `GET /files/view/{filename}`: the raw bytes of the local copy,
or the not-found JSON message (returned as a normal 200 value, not an
exception). -/
inductive ViewResult where
  | fileBytes (content : List Nat)
  | notFoundMessage (msg : PyStr)
deriving DecidableEq

/-- The literal message returned when the local copy is absent
(`main.py` line 92). -/
def viewNotFoundText : PyStr :=
  "File not found locally. It might have been uploaded in a previous session or deleted.".toList

/-- The phrase about a previous session contained in the message. -/
def prevSessionText : PyStr := "uploaded in a previous session".toList

/-- The phrase about deletion contained in the message. -/
def deletedText : PyStr := "or deleted".toList

/-- The `view_file` handler (`main.py` lines 87-92): look up
`uploads/{filename}` in the local store (modelled as a function from path to
optional content) and either serve the bytes or return the message. -/
def view_file (store : PyStr → Option (List Nat)) (filename : PyStr) : ViewResult :=
  match store (uploadsDir ++ filename) with
  | some c => ViewResult.fileBytes c
  | none => ViewResult.notFoundMessage viewNotFoundText

/-! ### Concrete instances used by witnesses and counterexamples -/

/-- An ACTIVE provider file. -/
def fActive : ProviderFile := { name := ['a'], state := FileState.active }

/-- A PENDING provider file. -/
def fPending : ProviderFile := { name := ['p'], state := FileState.pending }

/-- A provider lookup with one ACTIVE file `"a"`, one PENDING file `"p"`,
and a raised exception for everything else. -/
def gMix : PyStr → Option ProviderFile := fun fid =>
  if fid = ['a'] then some fActive
  else if fid = ['p'] then some fPending
  else none

/-- A reply string. -/
def okReply : PyStr := ['f', 'i', 'n', 'e']

/-- An exception message. -/
def failMsg : PyStr := ['b', 'o', 'o', 'm']

/-- A provider on which every `get_file` raises but generation succeeds. -/
def unresolvableProvider : Provider :=
  { getFile := fun _ => none
    sendMessage := fun _ _ => Except.ok okReply }

/-- A provider whose generation call raises `boom`. -/
def sendFailProvider : Provider :=
  { getFile := fun _ => none
    sendMessage := fun _ _ => Except.error failMsg }

/-- A provider URI for upload tests. -/
def gUri : PyStr := "https://prov/files/u1".toList

/-- A local-write error message. -/
def diskFull : PyStr := "disk full".toList

/-- An upload environment whose local write raises while the provider-side
ingestion succeeds on every input. -/
def envLocalFail : UploadEnv :=
  { localWrite := fun _ _ => Except.error diskFull
    providerUpload := fun _ _ _ => Except.ok { uri := gUri } }

/-- An upload environment on which both effects succeed. -/
def okEnv : UploadEnv :=
  { localWrite := fun _ _ => Except.ok ()
    providerUpload := fun _ _ _ => Except.ok { uri := gUri } }

/-- A chat request with no file references. -/
def cexChatReq : ChatRequest := { message := ['h', 'i'], history := [], file_ids := none }

/-- An empty local store. -/
def emptyStore : PyStr → Option (List Nat) := fun _ => none

/-- A local store holding one cached file `"d"` with bytes `[9, 8]`. -/
def oneStore : PyStr → Option (List Nat) := fun p =>
  if p = uploadsDir ++ ['d'] then some [9, 8] else none

/-- A concrete URI head `"https://x"` for the normalization witness. -/
def cPre : PyStr := ['h', 't', 't', 'p', 's', ':', '/', '/', 'x']

/-- A concrete identifier `"abc"` for the normalization witness. -/
def cId : PyStr := ['a', 'b', 'c']

/-! ## Helper lemmas about the string primitives -/

theorem pyStartsWith_self_append (l t : PyStr) : pyStartsWith l (l ++ t) = true := by
  induction l with
  | nil => rfl
  | cons c cs ih => simp [pyStartsWith, ih]

theorem containsSub_append (pat x y : PyStr) (h : pyStartsWith pat y = true) :
    containsSub pat (x ++ y) = true := by
  induction x with
  | nil =>
    cases y with
    | nil => simpa [containsSub] using h
    | cons c cs => simp [containsSub, h]
  | cons a as ih => simp [containsSub, ih]

theorem http_not_starts_filesTag (l : PyStr) :
    pyStartsWith httpStart (filesTag ++ l) = false := by
  simp [httpStart, filesTag, pyStartsWith]

theorem pySplitFuel_no_occ (pat : PyStr) :
    ∀ (s : PyStr) (fuel : Nat) (acc : PyStr), s.length ≤ fuel →
      containsSub pat s = false →
      pySplitFuel pat fuel acc s = [acc.reverse ++ s] := by
  intro s
  induction s with
  | nil =>
    intro fuel acc _ _
    cases fuel with
    | zero => rfl
    | succ n => simp [pySplitFuel]
  | cons c cs ih =>
    intro fuel acc hf hc
    cases fuel with
    | zero => exact absurd hf (by simp)
    | succ n =>
      have hc1 : pyStartsWith pat (c :: cs) = false ∧ containsSub pat cs = false := by
        rw [containsSub, Bool.or_eq_false_iff] at hc
        exact hc
      have hlen : cs.length ≤ n := by
        simp only [List.length_cons] at hf
        omega
      simp only [pySplitFuel, hc1.1, Bool.false_eq_true, if_false]
      rw [ih n (c :: acc) hlen hc1.2]
      simp

theorem pySplitFuel_boundary :
    ∀ (pre notch acc : PyStr) (fuel : Nat),
      (pre ++ (filesSep ++ notch)).length ≤ fuel →
      (∀ i, i < pre.length →
        pyStartsWith filesSep ((pre ++ (filesSep ++ notch)).drop i) = false) →
      containsSub filesSep notch = false →
      pySplitFuel filesSep fuel acc (pre ++ (filesSep ++ notch))
        = [acc.reverse ++ pre, notch] := by
  intro pre
  induction pre with
  | nil =>
    intro notch acc fuel hf _ hid
    cases fuel with
    | zero => exact absurd hf (by simp [filesSep])
    | succ n =>
      have hlen : notch.length ≤ n := by
        simp [filesSep] at hf
        omega
      have hdrop : List.drop (List.length filesSep - 1)
          ('f' :: 'i' :: 'l' :: 'e' :: 's' :: '/' :: notch) = notch := by
        simp [filesSep]
      have hsw : pyStartsWith filesSep ('/' :: 'f' :: 'i' :: 'l' :: 'e' :: 's' :: '/' :: notch)
          = true := pyStartsWith_self_append filesSep notch
      simp only [List.nil_append]
      show pySplitFuel filesSep (n + 1) acc
          ('/' :: 'f' :: 'i' :: 'l' :: 'e' :: 's' :: '/' :: notch) = _
      simp only [pySplitFuel, hsw, eq_self_iff_true, if_true]
      rw [hdrop, pySplitFuel_no_occ filesSep notch n [] hlen hid]
      simp
  | cons p ps ih =>
    intro notch acc fuel hf hno hid
    cases fuel with
    | zero => exact absurd hf (by simp)
    | succ n =>
      have h0 : pyStartsWith filesSep (p :: (ps ++ (filesSep ++ notch))) = false := by
        have := hno 0 (by simp)
        simpa using this
      have hlen : (ps ++ (filesSep ++ notch)).length ≤ n := by
        simp only [List.cons_append, List.length_cons] at hf
        omega
      have hno2 : ∀ i, i < ps.length →
          pyStartsWith filesSep ((ps ++ (filesSep ++ notch)).drop i) = false := by
        intro i hi
        have := hno (i + 1) (by simp; omega)
        simpa [List.drop_succ_cons] using this
      simp only [List.cons_append, pySplitFuel, List.append_eq]
      rw [h0]
      simp only [Bool.false_eq_true, if_false]
      rw [ih notch (p :: acc) n hlen hno2 hid]
      simp

theorem pySplit_boundary (pre notch : PyStr)
    (hno : ∀ i, i < pre.length →
      pyStartsWith filesSep ((pre ++ (filesSep ++ notch)).drop i) = false)
    (hid : containsSub filesSep notch = false) :
    pySplit filesSep (pre ++ (filesSep ++ notch)) = [pre, notch] := by
  unfold pySplit
  rw [pySplitFuel_boundary pre notch [] _ (le_refl _) hno hid]
  simp

/-! ## Claims about normalization -/

/-- C6: file-reference normalization is idempotent — for every string `x`,
`normalizeFileReference (normalizeFileReference x) = normalizeFileReference x`. -/
theorem normalizeFileReference_idempotent (x : PyStr) :
    normalizeFileReference (normalizeFileReference x) = normalizeFileReference x := by
  by_cases h : (pyStartsWith httpStart x && containsSub filesSep x) = true
  · have h1 : normalizeFileReference x = filesTag ++ pyLast (pySplit filesSep x) := by
      unfold normalizeFileReference
      rw [if_pos h]
    rw [h1]
    unfold normalizeFileReference
    rw [http_not_starts_filesTag]
    simp
  · have h1 : normalizeFileReference x = x := by
      unfold normalizeFileReference
      rw [if_neg h]
    rw [h1, h1]

/-- C7: a reference of the form `pre ++ "/files/" ++ id`, where the whole
string starts with `"http"`, the shown occurrence of `"/files/"` is the
first one, and `id` contains no further `"/files/"`, normalizes to
`"files/" ++ id`; and any reference that is not an http URI containing
`"/files/"` is returned unchanged. -/
theorem normalizeFileReference_extracts_files_id :
    (∀ pre notch : PyStr,
        pyStartsWith httpStart (pre ++ (filesSep ++ notch)) = true →
        (∀ i, i < pre.length →
          pyStartsWith filesSep ((pre ++ (filesSep ++ notch)).drop i) = false) →
        containsSub filesSep notch = false →
        normalizeFileReference (pre ++ (filesSep ++ notch)) = filesTag ++ notch)
    ∧ (∀ ref : PyStr,
        (pyStartsWith httpStart ref && containsSub filesSep ref) = false →
        normalizeFileReference ref = ref) := by
  constructor
  · intro pre notch hh hno hid
    have hc : containsSub filesSep (pre ++ (filesSep ++ notch)) = true :=
      containsSub_append _ _ _ (pyStartsWith_self_append _ _)
    unfold normalizeFileReference
    rw [if_pos (by rw [hh, hc]; rfl)]
    rw [pySplit_boundary pre notch hno hid]
    rfl
  · intro ref h
    unfold normalizeFileReference
    rw [if_neg (by rw [h]; exact Bool.false_ne_true)]

/-- Witness for C7 at the concrete reference `"https://x/files/abc"` and the
concrete non-URI reference `"q"`. -/
theorem normalizeFileReference_extracts_files_id_witness :
    normalizeFileReference (cPre ++ (filesSep ++ cId)) = filesTag ++ cId
    ∧ normalizeFileReference ['q'] = ['q'] :=
  ⟨normalizeFileReference_extracts_files_id.1 cPre cId (by decide) (by decide) (by decide),
   normalizeFileReference_extracts_files_id.2 ['q'] (by decide)⟩

/-! ## Helper lemmas about the resolution loop and the outgoing parts -/

theorem resolveLoop_fst (g : PyStr → Option ProviderFile) (l : List PyStr) :
    (resolveLoop g l).1 = l.filterMap (resolveCheck g) := by
  induction l with
  | nil => rfl
  | cons fid rest ih =>
    simp only [resolveLoop, List.filterMap_cons]
    cases hg : g fid with
    | none => simpa [resolveCheck, hg] using ih
    | some f =>
      by_cases hs : f.state = FileState.active
      · simp [resolveCheck, hg, hs, ih]
      · simp [resolveCheck, hg, hs, ih]

theorem resolveLoop_length (g : PyStr → Option ProviderFile) (l : List PyStr) :
    (resolveLoop g l).1.length + (resolveLoop g l).2.length = l.length := by
  induction l with
  | nil => rfl
  | cons fid rest ih =>
    cases hg : g fid with
    | none =>
      simp only [resolveLoop, hg, List.length_cons]
      omega
    | some f =>
      by_cases hs : f.state = FileState.active
      · simp only [resolveLoop, hg, hs, if_true, List.length_cons]
        omega
      · simp only [resolveLoop, hg, hs, if_false, List.length_cons]
        omega

theorem resolveCheck_active (g : PyStr → Option ProviderFile) (fid : PyStr)
    (f : ProviderFile) (h : resolveCheck g fid = some f) :
    f.state = FileState.active := by
  unfold resolveCheck at h
  split at h
  · split at h
    · cases h
      assumption
    · cases h
  · cases h

theorem sentParts_eq (g : PyStr → Option ProviderFile) (m : PyStr)
    (fids : Option (List PyStr)) :
    sentParts g m fids =
      MsgPart.text m ::
        ((fids.getD []).filterMap fun r =>
          resolveCheck g (normalizeFileReference r)).map MsgPart.file := by
  cases fids with
  | none => rfl
  | some l =>
    cases l with
    | nil => rfl
    | cons r rs =>
      have hv : (resolveFiles g (r :: rs)).1
          = (r :: rs).filterMap fun x => resolveCheck g (normalizeFileReference x) := by
        unfold resolveFiles
        rw [resolveLoop_fst, List.filterMap_map]
        rfl
      simp only [sentParts, Option.getD_some]
      rw [hv]
      cases hres : (r :: rs).filterMap fun x => resolveCheck g (normalizeFileReference x) with
      | nil => simp
      | cons v vs => simp

/-! ## Claims about the file-resolution step and ask_question -/

/-- C1: the file-resolution step of `ask_question` keeps only handles whose
provider state is ACTIVE; every reference that cannot be resolved or whose
state is not ACTIVE is dropped (the step itself is total — the swallowed
exception never escapes) and produces exactly one diagnostic log entry, so
kept handles and log entries together account for every reference; and every
file handle attached to the outgoing message is ACTIVE. -/
theorem resolveFiles_only_active_and_logged (g : PyStr → Option ProviderFile)
    (m : PyStr) (refs : List PyStr) :
    (∀ f, f ∈ (resolveFiles g refs).1 → f.state = FileState.active)
    ∧ (resolveFiles g refs).1.length + (resolveFiles g refs).2.length = refs.length
    ∧ (∀ f, MsgPart.file f ∈ sentParts g m (some refs) → f.state = FileState.active) := by
  have hact : ∀ f, f ∈ (resolveFiles g refs).1 → f.state = FileState.active := by
    intro f hf
    unfold resolveFiles at hf
    rw [resolveLoop_fst] at hf
    rcases List.mem_filterMap.mp hf with ⟨a, _, ha⟩
    exact resolveCheck_active g a f ha
  refine ⟨hact, ?_, ?_⟩
  · have := resolveLoop_length g (refs.map normalizeFileReference)
    unfold resolveFiles
    simpa using this
  · intro f hf
    rw [sentParts_eq] at hf
    rcases List.mem_cons.mp hf with h | h
    · cases h
    · rcases List.mem_map.mp h with ⟨f0, hmem, heq⟩
      cases heq
      apply hact
      unfold resolveFiles
      rw [resolveLoop_fst, List.filterMap_map]
      simpa using hmem

/-- Witness for C1 at a provider with one ACTIVE file `"a"`, one PENDING
file `"p"`, and a failing lookup for `"z"`: the ACTIVE file is kept and the
two drops produce the two log entries. -/
theorem resolveFiles_only_active_and_logged_witness :
    fActive.state = FileState.active
    ∧ (resolveFiles gMix [['a'], ['p'], ['z']]).1.length
        + (resolveFiles gMix [['a'], ['p'], ['z']]).2.length = 3 :=
  ⟨(resolveFiles_only_active_and_logged gMix ['m'] [['a'], ['p'], ['z']]).1 fActive (by decide),
   (resolveFiles_only_active_and_logged gMix ['m'] [['a'], ['p'], ['z']]).2.1⟩

/-- C2 counterexample: on a provider where `get_file` raises for every
reference but generation succeeds, `ask_question` with a file reference
succeeds — a failure to resolve a supplied file reference does NOT fail the
whole call, contradicting the claim. -/
theorem ask_question_ok_despite_resolution_failure :
    unresolvableProvider.getFile (normalizeFileReference ['q']) = none
    ∧ ask_question unresolvableProvider ['m'] [] (some [['q']]) = Except.ok okReply :=
  ⟨rfl, rfl⟩

/-- C2 amended: a failure of the provider's generation call
(`chat.send_message`) fails the whole call and propagates the underlying
error unchanged (the single send is never retried), and a successful send
yields that reply — so per-reference resolution failures never surface as
call failures. -/
theorem ask_question_propagates_send_errors (P : Provider) (m : PyStr)
    (h : List ChatTurn) (fids : Option (List PyStr)) :
    (∀ e, P.sendMessage (geminiHistory h) (sentParts P.getFile m fids) = Except.error e →
        ask_question P m h fids = Except.error e)
    ∧ (∀ t, P.sendMessage (geminiHistory h) (sentParts P.getFile m fids) = Except.ok t →
        ask_question P m h fids = Except.ok t) := by
  constructor
  · intro e he
    unfold ask_question
    rw [he]
  · intro t ht
    unfold ask_question
    rw [ht]

/-- Witness for C2 (amended) at a provider whose send raises `boom` and at
one whose send succeeds. -/
theorem ask_question_propagates_send_errors_witness :
    ask_question sendFailProvider ['m'] [] (some [['a']]) = Except.error failMsg
    ∧ ask_question unresolvableProvider ['z'] [] none = Except.ok okReply :=
  ⟨(ask_question_propagates_send_errors sendFailProvider ['m'] [] (some [['a']])).1 failMsg rfl,
   (ask_question_propagates_send_errors unresolvableProvider ['z'] [] none).2 okReply rfl⟩

/-- C10: the outgoing turn is exactly the literal message as first part
followed by the resolved ACTIVE file handles in the order of the supplied
references (`filterMap` preserves the reference order); and when every
supplied reference is dropped, the message is sent alone and the call
succeeds whenever the provider's send succeeds. -/
theorem ask_question_message_first_then_active_files (P : Provider) (m : PyStr)
    (h : List ChatTurn) (fids : Option (List PyStr)) :
    ask_question P m h fids =
      P.sendMessage (geminiHistory h)
        (MsgPart.text m ::
          ((fids.getD []).filterMap fun r =>
            resolveCheck P.getFile (normalizeFileReference r)).map MsgPart.file)
    ∧ (∀ refs t, fids = some refs →
        (∀ r, r ∈ refs → resolveCheck P.getFile (normalizeFileReference r) = none) →
        P.sendMessage (geminiHistory h) [MsgPart.text m] = Except.ok t →
        ask_question P m h fids = Except.ok t) := by
  have key : ask_question P m h fids =
      P.sendMessage (geminiHistory h)
        (MsgPart.text m ::
          ((fids.getD []).filterMap fun r =>
            resolveCheck P.getFile (normalizeFileReference r)).map MsgPart.file) := by
    unfold ask_question
    rw [sentParts_eq]
    cases P.sendMessage (geminiHistory h)
        (MsgPart.text m ::
          ((fids.getD []).filterMap fun r =>
            resolveCheck P.getFile (normalizeFileReference r)).map MsgPart.file) with
    | ok t => rfl
    | error e => rfl
  refine ⟨key, ?_⟩
  intro refs t hfid hall hsend
  subst hfid
  have hnil : (refs.filterMap fun r => resolveCheck P.getFile (normalizeFileReference r)) = [] :=
    List.filterMap_eq_nil_iff.mpr hall
  rw [key]
  simp only [Option.getD_some, hnil, List.map_nil]
  exact hsend

/-- Witness for C10: with every reference dropped, the message goes out
alone and the call returns the provider's reply. -/
theorem ask_question_message_first_then_active_files_witness :
    ask_question unresolvableProvider ['w'] [] (some [['q'], ['r']]) = Except.ok okReply :=
  (ask_question_message_first_then_active_files unresolvableProvider ['w'] []
      (some [['q'], ['r']])).2 [['q'], ['r']] okReply rfl (by decide) rfl

/-! ## Claims about upload, chat gateway and view -/

/-- C3 counterexample: with a provider-side ingestion that succeeds on every
input, a failure of the best-effort local write makes the whole
`upload_file` operation fail — the local write has no exception handler and
runs before the provider upload, contradicting the claim. -/
theorem upload_file_fails_when_local_write_fails :
    envLocalFail.providerUpload ['r'] octetStream [1, 2] = Except.ok { uri := gUri }
    ∧ upload_file envLocalFail ['r'] none [1, 2] = Except.error diskFull :=
  ⟨rfl, rfl⟩

/-- C3 amended: a failure to write the local copy is unhandled — it aborts
`upload_file` before the provider upload and propagates the underlying
error to the caller; nothing is logged and no upload response is returned. -/
theorem upload_file_local_write_error_propagates (env : UploadEnv) (f : PyStr)
    (ct : Option PyStr) (c : List Nat) (e : PyStr)
    (h : env.localWrite (uploadsDir ++ f) c = Except.error e) :
    upload_file env f ct c = Except.error e := by
  unfold upload_file
  rw [h]

/-- Witness for C3 (amended) at an environment whose local write raises
`disk full`. -/
theorem upload_file_local_write_error_propagates_witness :
    upload_file envLocalFail ['s'] none [3] = Except.error diskFull :=
  upload_file_local_write_error_propagates envLocalFail ['s'] none [3] diskFull rfl

/-- C4 counterexample: when the adapter call behind `POST /chat` fails with
message `boom`, the handler has no exception mapping, so the framework's
default produces the generic 500 whose fixed body `"Internal Server Error"`
does not contain the failure's message text — contradicting the claim that
the body carries the failure's message. -/
theorem chat_error_body_is_generic :
    ask_question sendFailProvider cexChatReq.message cexChatReq.history cexChatReq.file_ids
        = Except.error failMsg
    ∧ frameworkRespond (fun b => b.response) (chatHandler sendFailProvider cexChatReq)
        = { status := 500, body := internalServerErrorText }
    ∧ containsSub failMsg internalServerErrorText = false :=
  ⟨rfl, rfl, by decide⟩

/-- C4 amended: on any adapter failure the `/chat` endpoint produces the
framework's generic 500 server error with the fixed body
`"Internal Server Error"` (the failure's message text is not included), and
no partial response exists — a 200 body always carries exactly the full
adapter reply. -/
theorem chat_adapter_failure_maps_to_generic_500 (P : Provider) (req : ChatRequest)
    (serialize : ChatBody → PyStr) :
    (∀ e, ask_question P req.message req.history req.file_ids = Except.error e →
        frameworkRespond serialize (chatHandler P req)
          = { status := 500, body := internalServerErrorText })
    ∧ (∀ b, chatHandler P req = Except.ok b →
        ask_question P req.message req.history req.file_ids = Except.ok b.response) := by
  constructor
  · intro e he
    unfold chatHandler
    rw [he]
    rfl
  · intro b hb
    unfold chatHandler at hb
    cases hq : ask_question P req.message req.history req.file_ids with
    | ok r =>
      rw [hq] at hb
      cases hb
      rfl
    | error e =>
      rw [hq] at hb
      cases hb

/-- Witness for C4 (amended) at the provider whose send raises `boom`. -/
theorem chat_adapter_failure_maps_to_generic_500_witness :
    frameworkRespond (fun b => b.response) (chatHandler sendFailProvider cexChatReq)
      = { status := 500, body := internalServerErrorText } :=
  (chat_adapter_failure_maps_to_generic_500 sendFailProvider cexChatReq
      (fun b => b.response)).1 failMsg rfl

/-- C5: every successful upload response contains both a `file_id` and a
`uri` (both are mandatory fields of `FileUploadResponse`), and they are
equal — both are set to the provider-assigned URI. -/
theorem upload_file_id_eq_uri (env : UploadEnv) (f : PyStr) (ct : Option PyStr)
    (c : List Nat) (resp : FileUploadResponse)
    (h : upload_file env f ct c = Except.ok resp) :
    resp.file_id = resp.uri := by
  unfold upload_file at h
  cases hl : env.localWrite (uploadsDir ++ f) c with
  | error e =>
    rw [hl] at h
    cases h
  | ok u =>
    rw [hl] at h
    cases hp : env.providerUpload f (pyOr ct octetStream) c with
    | error e =>
      rw [hp] at h
      cases h
    | ok gf =>
      rw [hp] at h
      cases h
      rfl

/-- Witness for C5 at an environment where both effects succeed. -/
theorem upload_file_id_eq_uri_witness :
    upload_file okEnv ['r'] none [7]
        = Except.ok { filename := ['r'], file_id := gUri, mime_type := octetStream, uri := gUri }
    ∧ ({ filename := ['r'], file_id := gUri, mime_type := octetStream,
          uri := gUri } : FileUploadResponse).file_id
        = ({ filename := ['r'], file_id := gUri, mime_type := octetStream,
              uri := gUri } : FileUploadResponse).uri :=
  ⟨rfl, upload_file_id_eq_uri okEnv ['r'] none [7] _ rfl⟩

/-- C8: `GET /files/view/{filename}` with no locally cached copy returns the
not-found message value (a normal response, not a raised failure), and that
message mentions the previous-session and deleted explanations; with a
cached copy it returns exactly the raw cached bytes. -/
theorem view_file_not_found_or_bytes (store : PyStr → Option (List Nat)) (fn : PyStr) :
    (store (uploadsDir ++ fn) = none →
        view_file store fn = ViewResult.notFoundMessage viewNotFoundText
        ∧ containsSub prevSessionText viewNotFoundText = true
        ∧ containsSub deletedText viewNotFoundText = true)
    ∧ (∀ c, store (uploadsDir ++ fn) = some c →
        view_file store fn = ViewResult.fileBytes c) := by
  constructor
  · intro h
    refine ⟨?_, by decide, by decide⟩
    unfold view_file
    rw [h]
  · intro c h
    unfold view_file
    rw [h]

/-- Witness for C8: an empty store yields the not-found message; a store
holding `"d"` yields its bytes. -/
theorem view_file_not_found_or_bytes_witness :
    view_file emptyStore ['x'] = ViewResult.notFoundMessage viewNotFoundText
    ∧ view_file oneStore ['d'] = ViewResult.fileBytes [9, 8] :=
  ⟨((view_file_not_found_or_bytes emptyStore ['x']).1 rfl).1,
   (view_file_not_found_or_bytes oneStore ['d']).2 [9, 8] (by decide)⟩

/-- C9: when the request supplies no content type, `upload_file` forwards
`"application/octet-stream"` to the provider's ingestion call and returns it
as the response's `mime_type`. -/
theorem upload_file_default_mime (env : UploadEnv) (f : PyStr) (c : List Nat) :
    upload_file env f none c =
      match env.localWrite (uploadsDir ++ f) c with
      | Except.error e => Except.error e
      | Except.ok _ =>
        match env.providerUpload f octetStream c with
        | Except.error e => Except.error e
        | Except.ok gf =>
          Except.ok
            { filename := f, file_id := gf.uri, mime_type := octetStream, uri := gf.uri } :=
  rfl
